import Mathlib

/-!
Verification of the historical-series normalization and insight-generation
logic of the flask company endpoint project, app/utils.py.

Modelling conventions:
- A Python float that may be NaN is represented as an Option over the
  rationals, with none standing for NaN. All arithmetic is exact; the
  source computes with IEEE doubles, and every theorem below is about the
  exact-arithmetic content of the formulas.
- pandas timestamps at calendar-day precision are represented by their
  proleptic ordinal, an integer, exactly the value datetime.toordinal
  produces at line 162 of utils.py.
- The sample standard deviation at line 152 involves a square root; the
  report stores its square (the sample variance), which determines the
  standard deviation uniquely since the latter is nonnegative. The two
  threshold comparisons at lines 180 and 182 are carried over as
  comparisons with the squared thresholds, which is equivalent because
  squaring is strictly monotone on nonnegative reals.
-/

/-- Truncation toward zero, the behaviour of the Python int() conversion on
a finite float (line 170 of utils.py). -/
def truncQ (q : ℚ) : ℤ := if 0 ≤ q then ⌊q⌋ else ⌈q⌉

/-- Round half to even at the integer level, the behaviour of the Python
built-in round on exact values. -/
def roundHalfEven (x : ℚ) : ℤ :=
  let f := ⌊x⌋
  let r := x - f
  if r < 1 / 2 then f
  else if 1 / 2 < r then f + 1
  else if f % 2 = 0 then f else f + 1

/-- The Python round(x, n) on exact values: scale by a power of ten, round
half to even, scale back. -/
def pyRound (n : ℕ) (x : ℚ) : ℚ := (roundHalfEven (x * 10 ^ n) : ℚ) / 10 ^ n

/-- Rounding lifted over a possibly-NaN value; round propagates NaN. -/
def optRound (n : ℕ) (x : Option ℚ) : Option ℚ := x.map (pyRound n)

/-- The Python expression x or d on a float x: NaN is truthy and is
returned unchanged; 0.0 is the only falsy float and is replaced by d.
Used at lines 151 and 152 of utils.py with d = 0.0, where it is the
identity. -/
def pyOrFloat (x : Option ℚ) (d : ℚ) : Option ℚ :=
  match x with
  | none => none
  | some v => if v = 0 then some d else some v

/-- Python truthiness of a float: NaN is truthy, 0.0 is falsy
(line 156 of utils.py tests first_close this way). -/
def pyTruthy (x : Option ℚ) : Bool :=
  match x with
  | none => true
  | some v => if v = 0 then false else true

/-- The comparison avg_return >= 0 of line 174: false when NaN. -/
def optGe0 (x : Option ℚ) : Bool :=
  match x with
  | none => false
  | some v => if 0 ≤ v then true else false

/-- The comparison avg_return <= 0 of line 176: false when NaN. -/
def optLe0 (x : Option ℚ) : Bool :=
  match x with
  | none => false
  | some v => if v ≤ 0 then true else false

/-- Arithmetic mean of a list of rationals. -/
def listMean (xs : List ℚ) : ℚ := xs.sum / (xs.length : ℚ)

/-- Sample variance (denominator length - 1), the square of the sample
standard deviation that pandas std with ddof = 1 computes. -/
def listSampleVar (xs : List ℚ) : ℚ :=
  (xs.map (fun x => (x - listMean xs) ^ 2)).sum / ((xs.length : ℚ) - 1)

/-- pandas Series.mean with skipna: the mean of the defined entries, NaN
when none is defined. -/
def optMean (xs : List (Option ℚ)) : Option ℚ :=
  let v := xs.filterMap id
  if v.isEmpty then none else some (listMean v)

/-- pandas Series.std with skipna and ddof = 1: the sample variance of the
defined entries is stored (see the file header); NaN when fewer than two
entries are defined. -/
def optVarS (xs : List (Option ℚ)) : Option ℚ :=
  let v := xs.filterMap id
  if v.length < 2 then none else some (listSampleVar v)

deriving instance DecidableEq for Except

/-- The Python str.strip method: remove whitespace from both ends. -/
def pyStrip (s : String) : String :=
  String.mk (((s.data.dropWhile Char.isWhitespace).reverse.dropWhile
    Char.isWhitespace).reverse)

/-- The Python str.lower method (the headers handled here are ASCII). -/
def pyLower (s : String) : String := String.mk (s.data.map Char.toLower)

/-- The Python str.upper method (ticker symbols are ASCII). -/
def pyUpper (s : String) : String := String.mk (s.data.map Char.toUpper)

/- ## Symbol Normalizer (utils.py lines 15-19) -/

inductive SymbolErr where
  | InvalidSymbol
  deriving Repr, DecidableEq

/-- normalize_symbol of utils.py lines 15-19. The input is optional
because the handlers pass request fields that may be absent; the Python
falsiness test on the argument fires exactly on None and the empty
string. -/
def normalize_symbol (symbol : Option String) : Except SymbolErr String :=
  match symbol with
  | none => .error SymbolErr.InvalidSymbol
  | some s =>
      if s = "" then .error SymbolErr.InvalidSymbol
      else .ok (pyUpper (pyStrip s))

/- ## Date Range Resolver (utils.py lines 29-45) -/

inductive RangeErr where
  | InvalidRange
  deriving Repr, DecidableEq

/-- build_date_range of utils.py lines 29-45. Calendar timestamps are
modelled as integers (day ordinals); the inputs are the already parsed
dates, so a supplied argument is a valid nonempty date string of the
source. datetime.utcnow() is passed in explicitly as now. -/
def build_date_range (now : ℤ) (start end_ : Option ℤ)
    (default_window : ℤ := 180) : Except RangeErr (ℤ × ℤ) :=
  let end_dt := match end_ with | some e => e | none => now
  let start_dt := match start with | some s => s | none => end_dt - default_window
  if end_dt < start_dt then .error RangeErr.InvalidRange
  else .ok (start_dt, end_dt)

/- ## Payload normalization header phase (utils.py lines 89-112) -/

/-- One caller-supplied record: field names mapped to numeric-or-null
values. Only the keys matter to the header checks modelled here. -/
abbrev PyRecord := List (String × Option ℚ)

inductive PayloadErr where
  | EmptyPayload
  | MissingRequiredFields
  deriving Repr, DecidableEq

/-- Accumulate column names in first-appearance order, skipping names
already seen, as pd.DataFrame does when built from a list of mappings. -/
def addCols (acc : List String) (ks : List String) : List String :=
  ks.foldl (fun a k => if k ∈ a then a else a ++ [k]) acc

/-- The column list of pd.DataFrame(data) for a list of records: the union
of the record keys in order of first appearance. -/
def dfRawColumns (data : List PyRecord) : List String :=
  data.foldl (fun acc r => addCols acc (r.map Prod.fst)) []

/-- The alias matching of utils.py lines 94-108: strip and lowercase the
header, then look it up in the alias table. -/
def canonicalHeader (s : String) : Option String :=
  let n := pyLower (pyStrip s)
  if n = "date" then some "Date"
  else if n = "open" then some "Open"
  else if n = "high" || n = "high_price" then some "High"
  else if n = "low" || n = "low_price" then some "Low"
  else if n = "close" then some "Close"
  else if n = "volume" || n = "vol" then some "Volume"
  else none

/-- df.rename(columns=column_map) at line 110: a column keeps its name
when the alias table has no entry for it. -/
def renameColumns (cols : List String) : List String :=
  cols.map (fun c => (canonicalHeader c).getD c)

/-- The emptiness and required-field checks of normalize_history_payload,
utils.py lines 89-112: the DataFrame is empty when the record list is
empty or contributes no columns; after renaming, Date and Close must both
be present. The later date parse and sort (lines 114-116) are not part of
this phase. -/
def normalize_history_payload_checks (data : List PyRecord) :
    Except PayloadErr (List String) :=
  let cols := dfRawColumns data
  if data.isEmpty || cols.isEmpty then .error PayloadErr.EmptyPayload
  else
    let renamed := renameColumns cols
    if "Date" ∈ renamed ∧ "Close" ∈ renamed then .ok renamed
    else .error PayloadErr.MissingRequiredFields

/- ## Insight Generator data model -/

/-- One row of the historical DataFrame as the Insight Generator reads it:
the parsed calendar date (day ordinal) and the possibly-NaN Close and
Volume values. The Open, High and Low columns are never read by
generate_insights_from_history and are omitted. -/
structure PriceRow where
  date : ℤ
  close : Option ℚ
  volume : Option ℚ
  deriving Repr, DecidableEq

/-- The historical DataFrame handed to the Insight Generator: its rows in
order, plus whether a Volume column is present (line 170 tests column
membership). The Date and Close columns are always present on the inputs
modelled here, which is what the loaders produce. -/
structure PriceFrame where
  rows : List PriceRow
  hasVolume : Bool
  deriving Repr, DecidableEq

/-- Errors the generator can raise outside the documented taxonomy:
EmptyData is the IndexError of close.iloc[-1] on a frame with no rows
(line 154); NanVolumeCast is the ValueError of int() applied to a NaN
Volume mean (line 170). -/
inductive GenErr where
  | EmptyData
  | NanVolumeCast
  deriving Repr, DecidableEq

/-- The structured statistics report of utils.py lines 185-201. The
date_range endpoints are kept as day ordinals rather than ISO strings
(the rendering at lines 188-189 is injective on day-precision dates).
The volatilitySq field stores the square of the unrounded sample standard
deviation of line 152; see the file header. -/
structure InsightReport where
  symbol : String
  dateRangeStart : ℤ
  dateRangeEnd : ℤ
  latest_close : Option ℚ
  percent_change : Option ℚ
  trend_direction : String
  volatility_profile : String
  volatilitySq : Option ℚ
  average_daily_return : Option ℚ
  average_volume : Option ℤ
  movingAverage20 : Option ℚ
  momentum_slope : ℚ
  recommendation : String
  deriving Repr, DecidableEq

/-- df.copy() at line 138: produces an independent deep copy, so writes to
the copy never reach the argument. On immutable values this is the
identity. -/
def dfCopy (df : PriceFrame) : PriceFrame := df

/-- df_augmented.sort_values("Date") at line 146 and line 115: sort the
rows ascending by date. The source requests the pandas default sort;
every theorem below that depends on row order assumes strictly increasing
dates, where every correct sort is the identity. -/
def dfSortRows (rows : List PriceRow) : List PriceRow :=
  List.insertionSort (fun a b => a.date ≤ b.date) rows

/-- One step of Series.pct_change at line 149: the fractional change
between a previous and a current Close, NaN when either is NaN. A zero
previous Close would give an IEEE infinity in the source; the theorems
that touch per-step returns assume nonzero Close values, where this case
does not arise, and it is mapped to undefined here. -/
def pctStep (prev cur : Option ℚ) : Option ℚ :=
  match prev, cur with
  | some p, some c => if p = 0 then none else some ((c - p) / p)
  | _, _ => none

/-- The tail of pct_change: one entry per consecutive pair. -/
def pctTail (prev : Option ℚ) : List (Option ℚ) → List (Option ℚ)
  | [] => []
  | c :: cs => pctStep prev c :: pctTail c cs

/-- Series.pct_change at line 149 (modern pandas semantics, no forward
fill): the first entry is NaN, each later entry is the fractional change
from the previous Close. -/
def pctChange : List (Option ℚ) → List (Option ℚ)
  | [] => []
  | c :: cs => none :: pctTail c cs

/-- TREND_SLOPE_THRESHOLD of utils.py line 12. -/
def trendSlopeThreshold : ℚ := 1 / 100

/-- The least-squares slope of np.polyfit(x, y, 1) at line 164 in exact
arithmetic. The denominator is positive whenever the x values are not all
equal; the theorems only use this under strictly increasing dates. -/
def lsSlope (pts : List (ℚ × ℚ)) : ℚ :=
  let n : ℚ := pts.length
  let sx := (pts.map Prod.fst).sum
  let sy := (pts.map Prod.snd).sum
  let sxy := (pts.map (fun p => p.1 * p.2)).sum
  let sxx := (pts.map (fun p => p.1 * p.1)).sum
  (n * sxy - sx * sy) / (n * sxx - sx * sx)

/-- The trend classification of lines 165-168. -/
def trendLabel (sv : ℚ) : String :=
  if trendSlopeThreshold < sv then "upward"
  else if sv < -trendSlopeThreshold then "downward"
  else "flat"

/-- avg_return at line 151: mean with skipna of the per-step returns,
then the no-op or-zero guard (see pyOrFloat: NaN is truthy). -/
def insAvgRet (rows : List PriceRow) : Option ℚ :=
  pyOrFloat (optMean (pctChange (rows.map (fun r => r.close)))) 0

/-- volatility at line 152, stored as its square: sample variance with
skipna of the daily_return column, then the no-op or-zero guard. -/
def insVolSq (rows : List PriceRow) : Option ℚ :=
  pyOrFloat (optVarS (pctChange (rows.map (fun r => r.close)))) 0

/-- latest_close at line 154: the Close of the last row. -/
def insLatestClose (r0 : PriceRow) (rest : List PriceRow) : Option ℚ :=
  (rest.getLastD r0).close

/-- first_close at line 155: the Close of the first row, falling back to
latest_close when it is NaN. -/
def insFirstClose (r0 : PriceRow) (rest : List PriceRow) : Option ℚ :=
  if r0.close = none then insLatestClose r0 rest else r0.close

/-- percent_change at line 156: guarded by Python truthiness of
first_close (NaN is truthy, 0.0 is falsy). In the truthy branch the
division has a nonzero defined denominator or propagates NaN. -/
def insPercentChange (r0 : PriceRow) (rest : List PriceRow) : Option ℚ :=
  if pyTruthy (insFirstClose r0 rest) then
    match insLatestClose r0 rest, insFirstClose r0 rest with
    | some l, some f => some ((l - f) / f * 100)
    | _, _ => none
  else some 0

/-- valid_data at line 158: rows with a defined Close. -/
def insValidRows (rows : List PriceRow) : List PriceRow :=
  rows.filter (fun r => r.close.isSome)

/-- Lines 159-168: with at least 2 valid rows, the fitted slope over
(ordinal date, Close) of the valid rows and its trend label; otherwise
slope 0.0 and flat. -/
def insSlopeTrend (rows : List PriceRow) : ℚ × String :=
  let validRows := insValidRows rows
  if 2 ≤ validRows.length then
    let sv := lsSlope (validRows.map (fun r => ((r.date : ℚ), r.close.getD 0)))
    (sv, trendLabel sv)
  else (0, "flat")

/-- avg_volume at line 170: None when the frame has no Volume column;
otherwise int() of the skipna mean of Volume over the valid rows, which
raises ValueError when that mean is NaN. -/
def insAvgVolumeE (hasVol : Bool) (rows : List PriceRow) :
    Except GenErr (Option ℤ) :=
  if hasVol then
    match optMean ((insValidRows rows).map (fun r => r.volume)) with
    | none => .error GenErr.NanVolumeCast
    | some m => .ok (some (truncQ m))
  else .ok none

/-- moving_average_20 at line 171: skipna mean of the last 20 Close
entries by date order. -/
def insMa20 (rows : List PriceRow) : Option ℚ :=
  let closeList := rows.map (fun r => r.close)
  optMean (closeList.drop (closeList.length - 20))

/-- recommendations at lines 173-177; both float comparisons are false on
NaN. -/
def insRecommendation (trend : String) (avgRet : Option ℚ) : String :=
  if (trend == "upward") && optGe0 avgRet then
    "Bullish momentum; consider accumulation with risk controls."
  else if (trend == "downward") && optLe0 avgRet then
    "Bearish momentum; prefer defensive posture."
  else "Neutral momentum; continue observing."

/-- volatility_profile at lines 179-183. The source compares the standard
deviation with 0.03 and 0.015; since the standard deviation is the
nonnegative square root of the stored variance, this is equivalent to
comparing the variance with 0.0009 and 0.000225. Both comparisons are
false on NaN, giving low. -/
def insVolatilityProfile (volSq : Option ℚ) : String :=
  match volSq with
  | none => "low"
  | some v =>
      if 9 / 10000 < v then "high"
      else if 225 / 1000000 < v then "moderate"
      else "low"

/-- The report assembly of generate_insights_from_history on the sorted
rows (utils.py lines 148-201). An empty frame raises IndexError at
line 154; a NaN Volume mean raises ValueError at line 170. -/
def insReport (symbol : String) (hasVol : Bool) :
    List PriceRow → Except GenErr InsightReport
  | [] => .error GenErr.EmptyData
  | r0 :: rest =>
    match insAvgVolumeE hasVol (r0 :: rest) with
    | .error e => .error e
    | .ok avgVolume =>
        .ok
          { symbol := symbol
            dateRangeStart := r0.date
            dateRangeEnd := (rest.getLastD r0).date
            latest_close := insLatestClose r0 rest
            percent_change := optRound 2 (insPercentChange r0 rest)
            trend_direction := (insSlopeTrend (r0 :: rest)).2
            volatility_profile := insVolatilityProfile (insVolSq (r0 :: rest))
            volatilitySq := insVolSq (r0 :: rest)
            average_daily_return := optRound 4 (insAvgRet (r0 :: rest))
            average_volume := avgVolume
            movingAverage20 := optRound 4 (insMa20 (r0 :: rest))
            momentum_slope := pyRound 6 (insSlopeTrend (r0 :: rest)).1
            recommendation :=
              insRecommendation (insSlopeTrend (r0 :: rest)).2
                (insAvgRet (r0 :: rest)) }

/-- generate_insights_from_history of utils.py lines 137-201 in
state-passing form: the first component is the report, the second is the
DataFrame the caller observes after the call. All writes of the source
(date coercion, sorting, the daily_return column) target the df.copy()
of line 138, so the caller state returned is the argument itself. -/
def generate_insights_from_history (symbol : String) (df : PriceFrame) :
    Except GenErr (InsightReport × PriceFrame) :=
  let df_augmented := dfCopy df
  (insReport symbol df.hasVolume (dfSortRows df_augmented.rows)).map
    (fun rep => (rep, df))

/- ## Spec-side definitions -/

/-- Modelled from the wording of the spec (section 4.4 step 1): the
defined per-step fractional changes of Close between consecutive rows of
the series. -/
def specStepReturns (rows : List PriceRow) : List ℚ :=
  (rows.zip rows.tail).filterMap (fun p => pctStep p.1.close p.2.close)

/-- Strict ascending date order of a row list. -/
def rowsStrictlySorted (rows : List PriceRow) : Prop :=
  List.Sorted (fun a b : PriceRow => a.date < b.date) rows

instance (rows : List PriceRow) : Decidable (rowsStrictlySorted rows) :=
  List.decidableSorted rows

/- ## Helper lemmas -/

theorem pyOrFloat_zero (x : Option ℚ) : pyOrFloat x 0 = x := by
  cases x with
  | none => rfl
  | some v => by_cases h : v = 0 <;> simp [pyOrFloat, h]

theorem pyRound_zero (n : ℕ) : pyRound n 0 = 0 := by
  norm_num [pyRound, roundHalfEven]

theorem pyRound_int (n : ℕ) (x : ℚ) (k : ℤ) (hk : x * 10 ^ n = (k : ℚ)) :
    pyRound n x = x := by
  have h10 : ((10 : ℚ)) ^ n ≠ 0 := by positivity
  simp only [pyRound, roundHalfEven, hk, Int.floor_intCast, sub_self]
  rw [if_pos (by norm_num)]
  rw [div_eq_iff h10]
  exact hk.symm

theorem dfSortRows_eq_of_sorted (rows : List PriceRow)
    (h : rowsStrictlySorted rows) : dfSortRows rows = rows := by
  apply List.Sorted.insertionSort_eq
  exact h.imp (fun hab => le_of_lt hab)

theorem filterMap_pctTail (p : PriceRow) (rs : List PriceRow) :
    (pctTail p.close (rs.map (fun r => r.close))).filterMap id
      = ((p :: rs).zip rs).filterMap (fun q => pctStep q.1.close q.2.close) := by
  induction rs generalizing p with
  | nil => rfl
  | cons c cs ih =>
      simp only [List.map_cons, pctTail, List.zip_cons_cons, List.filterMap_cons]
      cases hS : pctStep p.close c.close with
      | none => simpa [hS] using ih c
      | some v => simpa [hS] using ih c

theorem filterMap_pctChange (rows : List PriceRow) :
    (pctChange (rows.map (fun r => r.close))).filterMap id
      = specStepReturns rows := by
  cases rows with
  | nil => rfl
  | cons r0 rs =>
      simp only [List.map_cons, pctChange, List.filterMap_cons, specStepReturns,
        List.tail_cons, id]
      exact filterMap_pctTail r0 rs

theorem gen_ok_iff (sym : String) (df : PriceFrame) (r : InsightReport)
    (df2 : PriceFrame) :
    generate_insights_from_history sym df = .ok (r, df2) ↔
      insReport sym df.hasVolume (dfSortRows df.rows) = .ok r ∧ df2 = df := by
  have hg : generate_insights_from_history sym df
      = (insReport sym df.hasVolume (dfSortRows df.rows)).map
          (fun rep => (rep, df)) := rfl
  rw [hg]
  cases hE : insReport sym df.hasVolume (dfSortRows df.rows) with
  | error e =>
      simp only [Except.map]
      constructor
      · intro h; cases h
      · intro h; cases h.1
  | ok rep =>
      simp only [Except.map]
      constructor
      · intro h
        injection h with h
        injection h with h1 h2
        exact ⟨by rw [h1], h2.symm⟩
      · intro h
        obtain ⟨h1, h2⟩ := h
        injection h1 with h1
        rw [h1, h2]

theorem insReport_fields (sym : String) (hv : Bool) (r0 : PriceRow)
    (rest : List PriceRow) (r : InsightReport)
    (h : insReport sym hv (r0 :: rest) = .ok r) :
    r.average_daily_return = optRound 4 (insAvgRet (r0 :: rest)) ∧
    r.volatilitySq = insVolSq (r0 :: rest) ∧
    r.latest_close = insLatestClose r0 rest ∧
    r.percent_change = optRound 2 (insPercentChange r0 rest) ∧
    r.trend_direction = (insSlopeTrend (r0 :: rest)).2 ∧
    r.momentum_slope = pyRound 6 (insSlopeTrend (r0 :: rest)).1 ∧
    r.volatility_profile = insVolatilityProfile (insVolSq (r0 :: rest)) ∧
    (∀ av, insAvgVolumeE hv (r0 :: rest) = .ok av → r.average_volume = av) := by
  revert h
  simp only [insReport]
  cases hE : insAvgVolumeE hv (r0 :: rest) with
  | error e => intro h; cases h
  | ok av =>
      intro h
      injection h with h
      subst h
      refine ⟨rfl, rfl, rfl, rfl, rfl, rfl, rfl, ?_⟩
      intro av2 hAv
      cases hAv
      rfl

/- ## Concrete frames used by witnesses and counterexamples -/

/-- Two rows, Close 100 then 110, consecutive dates, no Volume column. -/
def dfTwoRows : PriceFrame :=
  ⟨[⟨0, some 100, none⟩, ⟨1, some 110, none⟩], false⟩

/-- A single row with a defined Close. -/
def dfOneRow : PriceFrame := ⟨[⟨0, some 100, none⟩], false⟩

/-- Three rows with rising Close values and a fully defined Volume
column. -/
def dfThreeRows : PriceFrame :=
  ⟨[⟨0, some 100, some 10⟩, ⟨1, some 110, some 20⟩, ⟨2, some 121, some 30⟩],
    true⟩

/-- Two rows with identical Close values. -/
def dfTwoSame : PriceFrame :=
  ⟨[⟨0, some 100, none⟩, ⟨1, some 100, none⟩], false⟩

/-- Four rows with identical Close values. -/
def dfFourSame : PriceFrame :=
  ⟨[⟨0, some 7, none⟩, ⟨1, some 7, none⟩, ⟨2, some 7, none⟩,
    ⟨3, some 7, none⟩], false⟩

/-- Two valid rows and a Volume column whose entries are all NaN. -/
def dfNanVolume : PriceFrame :=
  ⟨[⟨0, some 100, none⟩, ⟨1, some 101, none⟩], true⟩

/-- Two rows whose first Close is zero. -/
def dfZeroFirst : PriceFrame :=
  ⟨[⟨0, some 0, none⟩, ⟨1, some 5, none⟩], false⟩

/- ## Claim C6 -/

/-- Claim C6 counterexample: the string of three spaces consists only of
whitespace, yet normalize_symbol does not fail on it; it returns the
empty string, because the falsiness test at line 16 of utils.py does not
fire on a nonempty blank string. This refutes the claim that every
whitespace-only string yields InvalidSymbol. -/
theorem c6_counterexample :
    "   ".data.all Char.isWhitespace = true ∧
    normalize_symbol (some "   ") = Except.ok "" := by
  constructor
  · decide
  · decide

/-- Claim C6 as amended: normalize_symbol fails with InvalidSymbol
exactly when the input is missing or the empty string; every other
string, including whitespace-only ones, is returned stripped and
uppercased, so that the example input with spaces around aapl gives
AAPL. -/
theorem c6_normalize_symbol :
    normalize_symbol none = Except.error SymbolErr.InvalidSymbol ∧
    normalize_symbol (some "") = Except.error SymbolErr.InvalidSymbol ∧
    (∀ s : String, s ≠ "" →
        normalize_symbol (some s) = Except.ok (pyUpper (pyStrip s))) ∧
    normalize_symbol (some "  aapl ") = Except.ok "AAPL" := by
  refine ⟨rfl, by decide, ?_, by decide⟩
  intro s hs
  simp [normalize_symbol, hs]

/-- Witness for the amended claim C6 at a concrete nonempty string. -/
theorem c6_witness :
    normalize_symbol (some "  msft ") = Except.ok "MSFT" :=
  (c6_normalize_symbol.2.2.1 "  msft " (by decide)).trans (by decide)

/- ## Claim C7 -/

/-- Claim C7: build_date_range returns exactly the given pair when both
endpoints are supplied (and the range is not inverted); with only the end
supplied the start defaults to end minus 180 days; and whenever the
resolved start is strictly after the resolved end it fails with
InvalidRange. -/
theorem c7_build_date_range :
    (∀ now s e : ℤ, s ≤ e →
        build_date_range now (some s) (some e) = Except.ok (s, e)) ∧
    (∀ now e : ℤ,
        build_date_range now none (some e) = Except.ok (e - 180, e)) ∧
    (∀ (now : ℤ) (s? e? : Option ℤ),
        e?.getD now < s?.getD (e?.getD now - 180) →
        build_date_range now s? e? = Except.error RangeErr.InvalidRange) := by
  refine ⟨?_, ?_, ?_⟩
  · intro now s e h
    simp only [build_date_range]
    rw [if_neg (not_lt.mpr h)]
  · intro now e
    simp only [build_date_range]
    rw [if_neg (by omega)]
  · intro now s? e? h
    cases e? <;> cases s? <;>
      simp only [Option.getD_some, Option.getD_none] at h <;>
      · simp only [build_date_range]
        rw [if_pos h]

/-- Witness for claim C7: all three conjuncts at concrete dates. -/
theorem c7_witness :
    build_date_range 0 (some 10) (some 20) = Except.ok (10, 20) ∧
    build_date_range 0 none (some 200) = Except.ok (20, 200) ∧
    build_date_range 0 (some 30) (some 20)
      = Except.error RangeErr.InvalidRange :=
  ⟨c7_build_date_range.1 0 10 20 (by decide),
   (c7_build_date_range.2.1 0 200).trans (by decide),
   c7_build_date_range.2.2 0 (some 30) (some 20) (by decide)⟩

/- ## Claim C5 -/

/-- Claim C5: the empty payload fails with EmptyPayload; header matching
is case-insensitive after stripping, sending Close, close-with-space and
CLOSE to the Close column, high_price to High, low_price to Low and vol
to Volume; and any nonempty payload that, after alias matching, lacks a
Date-equivalent or a Close-equivalent column fails with
MissingRequiredFields. -/
theorem c5_payload_checks :
    normalize_history_payload_checks [] = Except.error PayloadErr.EmptyPayload ∧
    canonicalHeader "Close" = some "Close" ∧
    canonicalHeader "close " = some "Close" ∧
    canonicalHeader "CLOSE" = some "Close" ∧
    canonicalHeader "high_price" = some "High" ∧
    canonicalHeader "low_price" = some "Low" ∧
    canonicalHeader "vol" = some "Volume" ∧
    (∀ data : List PyRecord, data ≠ [] → dfRawColumns data ≠ [] →
        ("Date" ∉ renameColumns (dfRawColumns data) ∨
          "Close" ∉ renameColumns (dfRawColumns data)) →
        normalize_history_payload_checks data
          = Except.error PayloadErr.MissingRequiredFields) := by
  refine ⟨by decide, by decide, by decide, by decide, by decide, by decide,
    by decide, ?_⟩
  intro data h1 h2 h3
  have hA : data.isEmpty = false := by
    cases data with
    | nil => exact absurd rfl h1
    | cons a l => rfl
  have hB : (dfRawColumns data).isEmpty = false := by
    cases hC : dfRawColumns data with
    | nil => exact absurd hC h2
    | cons a l => rfl
  simp only [normalize_history_payload_checks, hA, hB, Bool.or_self,
    Bool.false_eq_true, if_false]
  rw [if_neg]
  intro hc
  exact h3.elim (fun hn => hn hc.1) (fun hn => hn hc.2)

/-- Witness for claim C5 at a concrete payload that has a column but
neither a Date- nor a Close-equivalent one. -/
theorem c5_witness :
    normalize_history_payload_checks [[("open", (none : Option ℚ))]]
      = Except.error PayloadErr.MissingRequiredFields :=
  c5_payload_checks.2.2.2.2.2.2.2 [[("open", none)]]
    (by decide) (by decide) (by decide)

/- ## Claims C9 and C10 -/

/-- Claim C10: the Insight Generator leaves the caller frame unchanged:
whenever it succeeds, the frame the caller observes after the call is the
argument itself, because every write of the source targets the df.copy()
made at line 138. -/
theorem c10_frame_unchanged :
    ∀ (sym : String) (df : PriceFrame) (r : InsightReport)
      (df2 : PriceFrame),
      generate_insights_from_history sym df = Except.ok (r, df2) →
      df2 = df := by
  intro sym df r df2 h
  exact ((gen_ok_iff sym df r df2).mp h).2

/-- Witness for claim C10 at a concrete frame. -/
theorem c10_witness :
    (generate_insights_from_history "AAPL" dfTwoRows).map (fun p => p.2)
      = Except.ok dfTwoRows := by
  cases hE : generate_insights_from_history "AAPL" dfTwoRows with
  | error e => cases e <;> exact absurd hE (by decide)
  | ok p =>
      obtain ⟨r, df2⟩ := p
      have h2 := c10_frame_unchanged "AAPL" dfTwoRows r df2 hE
      simp [Except.map, h2]

/-- Claim C9: the Insight Generator is deterministic and idempotent.
Calling it again on the state left by a successful call yields the very
same report and state: the generator reads nothing but its arguments (no
clock, no randomness, no ambient state in lines 137-201) and does not
disturb its input. -/
theorem c9_idempotent :
    ∀ (sym : String) (df : PriceFrame) (r : InsightReport)
      (df2 : PriceFrame),
      generate_insights_from_history sym df = Except.ok (r, df2) →
      generate_insights_from_history sym df2 = Except.ok (r, df2) := by
  intro sym df r df2 h
  obtain ⟨h1, h2⟩ := (gen_ok_iff sym df r df2).mp h
  subst h2
  exact h

/-- Witness for claim C9: running the generator, then running it again on
the resulting state, gives the same outcome as the single run. -/
theorem c9_witness :
    (generate_insights_from_history "AAPL" dfThreeRows).bind
        (fun p => generate_insights_from_history "AAPL" p.2)
      = generate_insights_from_history "AAPL" dfThreeRows := by
  cases hE : generate_insights_from_history "AAPL" dfThreeRows with
  | error e => cases e <;> exact absurd hE (by decide)
  | ok p =>
      obtain ⟨r, df2⟩ := p
      have h2 := c9_idempotent "AAPL" dfThreeRows r df2 hE
      simp [Except.bind, h2]

/- ## Further evaluation lemmas -/

theorem insAvgRet_eq (rows : List PriceRow) (h : specStepReturns rows ≠ []) :
    insAvgRet rows = some (listMean (specStepReturns rows)) := by
  have hfm := filterMap_pctChange rows
  simp only [insAvgRet, pyOrFloat_zero, optMean, hfm]
  rw [if_neg (by simp [List.isEmpty_iff, h])]

theorem insVolSq_eq (rows : List PriceRow)
    (h : 2 ≤ (specStepReturns rows).length) :
    insVolSq rows = some (listSampleVar (specStepReturns rows)) := by
  have hfm := filterMap_pctChange rows
  simp only [insVolSq, pyOrFloat_zero, optVarS, hfm]
  rw [if_neg (by omega)]

theorem specStepReturns_pair (a b : PriceRow) (p c : ℚ) (hp : a.close = some p)
    (hc : b.close = some c) (hp0 : p ≠ 0) :
    specStepReturns [a, b] = [(c - p) / p] := by
  have hstep : pctStep a.close b.close = some ((c - p) / p) := by
    rw [hp, hc]
    simp only [pctStep]
    rw [if_neg hp0]
  unfold specStepReturns
  simp only [List.zip_cons_cons, List.tail_cons, List.zip_nil_right,
    List.filterMap_cons, List.filterMap_nil]
  rw [hstep]

/- ## Claim C3 -/

/-- Claim C3: for a series whose first and last Close values are defined,
percent_change is (latest minus first) over first times 100, rounded to
two places, except that a zero first Close short-circuits to 0.0 with no
division performed; and the concrete two-point series 100 then 110 one
day apart reports percent_change 10.0 and average_daily_return 0.1. -/
theorem c3_percent_change :
    (∀ (sym : String) (df : PriceFrame) (r : InsightReport)
        (df2 : PriceFrame) (r0 : PriceRow) (rest : List PriceRow) (f l : ℚ),
        df.rows = r0 :: rest →
        rowsStrictlySorted df.rows →
        r0.close = some f →
        (rest.getLastD r0).close = some l →
        generate_insights_from_history sym df = Except.ok (r, df2) →
        r.percent_change =
          if f = 0 then some 0
          else some (pyRound 2 ((l - f) / f * 100))) ∧
    (generate_insights_from_history "AAPL" dfTwoRows).map
        (fun p => (p.1.percent_change, p.1.average_daily_return))
      = Except.ok (some 10, some (1 / 10)) := by
  constructor
  · intro sym df r df2 r0 rest f l hR hS hF hL hOk
    obtain ⟨h1, _⟩ := (gen_ok_iff sym df r df2).mp hOk
    rw [dfSortRows_eq_of_sorted df.rows hS, hR] at h1
    have hFields := insReport_fields sym df.hasVolume r0 rest r h1
    rw [hFields.2.2.2.1]
    have hFC : insFirstClose r0 rest = some f := by
      simp [insFirstClose, hF]
    have hLC : insLatestClose r0 rest = some l := hL
    have hPC : insPercentChange r0 rest
        = if f = 0 then some 0 else some ((l - f) / f * 100) := by
      unfold insPercentChange
      rw [hFC, hLC]
      by_cases hf0 : f = 0
      · simp [pyTruthy, hf0]
      · simp [pyTruthy, hf0]
    rw [hPC]
    by_cases hf0 : f = 0
    · simp [hf0, optRound, pyRound_zero]
    · simp [hf0, optRound]
  · cases hE : generate_insights_from_history "AAPL" dfTwoRows with
    | error e => cases e <;> exact absurd hE (by decide)
    | ok p =>
        obtain ⟨r, df2⟩ := p
        obtain ⟨h1, _⟩ := (gen_ok_iff "AAPL" dfTwoRows r df2).mp hE
        have h1b : insReport "AAPL" dfTwoRows.hasVolume
            (⟨0, some 100, none⟩ :: [⟨1, some 110, none⟩]) = Except.ok r := by
          exact (by decide :
            dfSortRows dfTwoRows.rows
              = (⟨0, some 100, none⟩ :: [⟨1, some 110, none⟩])) ▸ h1
        have hFields := insReport_fields "AAPL" dfTwoRows.hasVolume
          ⟨0, some 100, none⟩ [⟨1, some 110, none⟩] r h1b
        simp only [Except.map]
        rw [hFields.2.2.2.1, hFields.1]
        have hFC : insFirstClose (⟨0, some 100, none⟩ : PriceRow)
            [⟨1, some 110, none⟩] = some 100 := by
          simp [insFirstClose]
        have hLC : insLatestClose (⟨0, some 100, none⟩ : PriceRow)
            [⟨1, some 110, none⟩] = some 110 := by
          simp [insLatestClose, List.getLastD]
        have hPC : insPercentChange (⟨0, some 100, none⟩ : PriceRow)
            [⟨1, some 110, none⟩] = some 10 := by
          unfold insPercentChange
          rw [hFC, hLC]
          norm_num [pyTruthy]
        have hSR : specStepReturns
            ((⟨0, some 100, none⟩ : PriceRow) :: [⟨1, some 110, none⟩])
            = [1 / 10] := by
          rw [specStepReturns_pair _ _ 100 110 rfl rfl (by norm_num)]
          norm_num
        have hAR : insAvgRet
            ((⟨0, some 100, none⟩ : PriceRow) :: [⟨1, some 110, none⟩])
            = some (1 / 10) := by
          rw [insAvgRet_eq _ (by rw [hSR]; simp), hSR]
          norm_num [listMean]
        rw [hPC, hAR]
        have e1 : optRound 2 (some (10 : ℚ)) = some (pyRound 2 10) := rfl
        have e2 : optRound 4 (some ((1 : ℚ) / 10))
            = some (pyRound 4 (1 / 10)) := rfl
        rw [e1, e2, pyRound_int 2 10 1000 (by norm_num),
          pyRound_int 4 (1 / 10) 1000 (by norm_num)]

/-- Witness for claim C3: the zero-first-Close branch at a concrete
series, exercising the division guard. -/
theorem c3_witness :
    (generate_insights_from_history "AAPL" dfZeroFirst).map
        (fun p => p.1.percent_change) = Except.ok (some 0) := by
  cases hE : generate_insights_from_history "AAPL" dfZeroFirst with
  | error e => cases e <;> exact absurd hE (by decide)
  | ok p =>
      obtain ⟨r, df2⟩ := p
      have h := c3_percent_change.1 "AAPL" dfZeroFirst r df2
        ⟨0, some 0, none⟩ [⟨1, some 5, none⟩] 0 5 rfl (by decide) rfl rfl hE
      simp only [Except.map]
      rw [h]
      norm_num

/- ## Claim C1 -/

theorem specStepReturns_cons (a b : PriceRow) (rest : List PriceRow)
    (p c : ℚ) (hp : a.close = some p) (hc : b.close = some c)
    (hp0 : p ≠ 0) :
    specStepReturns (a :: b :: rest)
      = (c - p) / p :: specStepReturns (b :: rest) := by
  have hstep : pctStep a.close b.close = some ((c - p) / p) := by
    rw [hp, hc]
    simp only [pctStep]
    rw [if_neg hp0]
  unfold specStepReturns
  simp only [List.tail_cons, List.zip_cons_cons, List.filterMap_cons]
  rw [hstep]

theorem insReport_stats (sym : String) (hv : Bool) (rows : List PriceRow)
    (r : InsightReport) (h1 : insReport sym hv rows = Except.ok r) :
    (specStepReturns rows ≠ [] →
        r.average_daily_return
          = some (pyRound 4 (listMean (specStepReturns rows)))) ∧
    (2 ≤ (specStepReturns rows).length →
        r.volatilitySq = some (listSampleVar (specStepReturns rows))) := by
  cases rows with
  | nil => simp [insReport] at h1
  | cons r0 rest =>
      have hFields := insReport_fields sym hv r0 rest r h1
      constructor
      · intro hne
        rw [hFields.1, insAvgRet_eq _ hne]
        rfl
      · intro h2
        rw [hFields.2.1, insVolSq_eq _ h2]

/-- Claim C1: for a series with strictly increasing dates and no zero
Close value, average_daily_return is the 4-place rounding of the mean of
the defined per-step fractional changes of Close whenever at least one is
defined, and the reported volatility is exactly the sample standard
deviation of those changes (stated via its square) whenever at least two
are defined; however, contrary to the claim, when no per-step return is
defined the code reports NaN rather than 0.0 (the one-row frame below),
because NaN is truthy and the or-zero guard at lines 151-152 never
fires. -/
theorem c1_return_stats :
    (∀ (sym : String) (df : PriceFrame) (r : InsightReport)
        (df2 : PriceFrame),
        rowsStrictlySorted df.rows →
        (∀ pr ∈ df.rows, pr.close ≠ some 0) →
        generate_insights_from_history sym df = Except.ok (r, df2) →
        (specStepReturns df.rows ≠ [] →
            r.average_daily_return
              = some (pyRound 4 (listMean (specStepReturns df.rows)))) ∧
        (2 ≤ (specStepReturns df.rows).length →
            r.volatilitySq
              = some (listSampleVar (specStepReturns df.rows)))) ∧
    (generate_insights_from_history "ACME" dfOneRow).map
        (fun p => (p.1.average_daily_return, p.1.volatilitySq))
      = Except.ok (none, none) := by
  constructor
  · intro sym df r df2 hS hNz hOk
    obtain ⟨h1, _⟩ := (gen_ok_iff sym df r df2).mp hOk
    rw [dfSortRows_eq_of_sorted df.rows hS] at h1
    exact insReport_stats sym df.hasVolume df.rows r h1
  · decide

/-- Witness for claim C1 at a concrete three-row series with returns
one-tenth and one-tenth. -/
theorem c1_witness :
    (generate_insights_from_history "AAPL" dfThreeRows).map
        (fun p => (p.1.average_daily_return, p.1.volatilitySq))
      = Except.ok (some (1 / 10), some 0) := by
  cases hE : generate_insights_from_history "AAPL" dfThreeRows with
  | error e => cases e <;> exact absurd hE (by decide)
  | ok p =>
      obtain ⟨r, df2⟩ := p
      have h := c1_return_stats.1 "AAPL" dfThreeRows r df2 (by decide)
        (by decide) hE
      have hSR : specStepReturns dfThreeRows.rows = [1 / 10, 1 / 10] := by
        have e1 : specStepReturns dfThreeRows.rows
            = (110 - 100) / 100
              :: specStepReturns [⟨1, some 110, some 20⟩,
                  ⟨2, some 121, some 30⟩] :=
          specStepReturns_cons _ _ _ 100 110 rfl rfl (by norm_num)
        rw [e1, specStepReturns_pair _ _ 110 121 rfl rfl (by norm_num)]
        norm_num
      have h1 := h.1 (by rw [hSR]; simp)
      have h2 := h.2 (by rw [hSR]; simp)
      have hM : listMean [(1 : ℚ) / 10, 1 / 10] = 1 / 10 := by
        norm_num [listMean]
      have hV : listSampleVar [(1 : ℚ) / 10, 1 / 10] = 0 := by
        norm_num [listSampleVar, listMean]
      simp only [Except.map]
      rw [h1, h2, hSR, hM, hV, pyRound_int 4 (1 / 10) 1000 (by norm_num)]

/- ## Claim C2 -/

theorem trendLabel_zero : trendLabel 0 = "flat" := by
  norm_num [trendLabel, trendSlopeThreshold]

theorem volProfile_zero : insVolatilityProfile (some 0) = "low" := by
  norm_num [insVolatilityProfile]

theorem sum_map_snd_const (pts : List (ℚ × ℚ)) (c : ℚ)
    (h : ∀ q ∈ pts, q.2 = c) :
    (pts.map Prod.snd).sum = (pts.length : ℚ) * c := by
  induction pts with
  | nil => simp
  | cons q l ih =>
      have hq := h q (by simp)
      have ihl := ih (fun x hx => h x (by simp [hx]))
      simp only [List.map_cons, List.sum_cons, hq, ihl, List.length_cons]
      push_cast
      ring

theorem sum_map_mul_snd_const (pts : List (ℚ × ℚ)) (c : ℚ)
    (h : ∀ q ∈ pts, q.2 = c) :
    (pts.map (fun q => q.1 * q.2)).sum = c * (pts.map Prod.fst).sum := by
  induction pts with
  | nil => simp
  | cons q l ih =>
      have hq := h q (by simp)
      have ihl := ih (fun x hx => h x (by simp [hx]))
      simp only [List.map_cons, List.sum_cons, hq, ihl]
      ring

theorem lsSlope_const (pts : List (ℚ × ℚ)) (c : ℚ)
    (h : ∀ q ∈ pts, q.2 = c) : lsSlope pts = 0 := by
  have hsy := sum_map_snd_const pts c h
  have hsxy := sum_map_mul_snd_const pts c h
  simp only [lsSlope, hsxy, hsy]
  have hz : (pts.length : ℚ) * (c * (pts.map Prod.fst).sum)
      - (pts.map Prod.fst).sum * ((pts.length : ℚ) * c) = 0 := by ring
  rw [hz, zero_div]

theorem pctTail_const (c : ℚ) (hc : c ≠ 0) (k : ℕ) :
    pctTail (some c) (List.replicate k (some c))
      = List.replicate k (some 0) := by
  induction k with
  | zero => rfl
  | succ k ih =>
      simp only [List.replicate_succ, pctTail, ih]
      simp only [pctStep]
      rw [if_neg hc]
      simp

theorem filterMap_id_replicate (k : ℕ) (x : ℚ) :
    (List.replicate k (some x)).filterMap id = List.replicate k x := by
  induction k with
  | zero => rfl
  | succ k ih => simp [List.replicate_succ, ih]

theorem listSampleVar_replicate_zero (m : ℕ) :
    listSampleVar (List.replicate m (0 : ℚ)) = 0 := by
  simp [listSampleVar, listMean, List.sum_replicate, List.map_replicate]

theorem insVolSq_const (rows : List PriceRow) (c : ℚ) (hc : c ≠ 0) (n : ℕ)
    (hmap : rows.map (fun q => q.close) = List.replicate n (some c))
    (h3 : 3 ≤ n) :
    insVolSq rows = some 0 := by
  unfold insVolSq
  rw [hmap]
  obtain ⟨m, rfl⟩ : ∃ m, n = m + 1 := ⟨n - 1, by omega⟩
  rw [List.replicate_succ]
  simp only [pctChange]
  rw [pctTail_const c hc m]
  have hfm : ((none :: List.replicate m (some (0 : ℚ)))).filterMap id
      = List.replicate m 0 := by
    simp [filterMap_id_replicate m 0]
  simp only [optVarS, hfm]
  rw [if_neg (by simp; omega)]
  rw [listSampleVar_replicate_zero]
  rfl

theorem insReport_slope (sym : String) (hv : Bool) (rows : List PriceRow)
    (r : InsightReport) (h1 : insReport sym hv rows = Except.ok r) :
    (2 ≤ (insValidRows rows).length →
        r.momentum_slope = pyRound 6 (lsSlope ((insValidRows rows).map
            (fun q => ((q.date : ℚ), q.close.getD 0)))) ∧
        r.trend_direction = trendLabel (lsSlope ((insValidRows rows).map
            (fun q => ((q.date : ℚ), q.close.getD 0))))) ∧
    ((insValidRows rows).length < 2 →
        r.momentum_slope = 0 ∧ r.trend_direction = "flat") := by
  cases rows with
  | nil => simp [insReport] at h1
  | cons r0 rest =>
      have hFields := insReport_fields sym hv r0 rest r h1
      constructor
      · intro h2
        have hST : insSlopeTrend (r0 :: rest)
            = (lsSlope ((insValidRows (r0 :: rest)).map
                (fun q => ((q.date : ℚ), q.close.getD 0))),
               trendLabel (lsSlope ((insValidRows (r0 :: rest)).map
                (fun q => ((q.date : ℚ), q.close.getD 0))))) := by
          simp only [insSlopeTrend]
          rw [if_pos h2]
        exact ⟨by rw [hFields.2.2.2.2.2.1, hST],
          by rw [hFields.2.2.2.2.1, hST]⟩
      · intro hlt
        have hST : insSlopeTrend (r0 :: rest) = (0, "flat") := by
          simp only [insSlopeTrend]
          rw [if_neg (by omega)]
        exact ⟨by rw [hFields.2.2.2.2.2.1, hST]; exact pyRound_zero 6,
          by rw [hFields.2.2.2.2.1, hST]⟩

theorem insReport_const (sym : String) (hv : Bool) (rows : List PriceRow)
    (r : InsightReport) (c : ℚ) (n : ℕ)
    (hmap : rows.map (fun q => q.close) = List.replicate n (some c))
    (hc : c ≠ 0) (h3 : 3 ≤ n)
    (h1 : insReport sym hv rows = Except.ok r) :
    r.momentum_slope = 0 ∧ r.trend_direction = "flat" ∧
    r.volatilitySq = some 0 ∧ r.volatility_profile = "low" := by
  have hAll : ∀ q ∈ rows, q.close = some c := by
    intro q hq
    have hmem : q.close ∈ rows.map (fun q => q.close) :=
      List.mem_map_of_mem _ hq
    rw [hmap] at hmem
    exact List.eq_of_mem_replicate hmem
  have hValid : insValidRows rows = rows := by
    apply List.filter_eq_self.mpr
    intro q hq
    rw [hAll q hq]
    rfl
  have hLen : rows.length = n := by
    have hcon := congrArg List.length hmap
    simpa using hcon
  have hVolSq : insVolSq rows = some 0 := insVolSq_const rows c hc n hmap h3
  have hSlope : lsSlope (rows.map (fun q => ((q.date : ℚ), q.close.getD 0)))
      = 0 := by
    apply lsSlope_const _ c
    intro q hq
    obtain ⟨a, ha, rfl⟩ := List.mem_map.mp hq
    rw [hAll a ha]
    rfl
  cases rows with
  | nil => simp [insReport] at h1
  | cons r0 rest =>
      have hFields := insReport_fields sym hv r0 rest r h1
      have h2 : 2 ≤ (insValidRows (r0 :: rest)).length := by
        rw [hValid]
        omega
      have hST : insSlopeTrend (r0 :: rest) = (0, "flat") := by
        simp only [insSlopeTrend]
        rw [if_pos h2]
        show (lsSlope ((insValidRows (r0 :: rest)).map
            (fun q => ((q.date : ℚ), q.close.getD 0))),
          trendLabel (lsSlope ((insValidRows (r0 :: rest)).map
            (fun q => ((q.date : ℚ), q.close.getD 0))))) = (0, "flat")
        rw [hValid, hSlope, trendLabel_zero]
      refine ⟨?_, ?_, ?_, ?_⟩
      · rw [hFields.2.2.2.2.2.1, hST]
        exact pyRound_zero 6
      · rw [hFields.2.2.2.2.1, hST]
      · rw [hFields.2.1, hVolSq]
      · rw [hFields.2.2.2.2.2.2.1, hVolSq, volProfile_zero]

/-- Claim C2: with at least 2 valid rows, momentum_slope is the 6-place
rounding of the least-squares slope of Close against ordinal date over
the valid rows, and trend_direction is classified from the unrounded
slope with the 0.01 threshold; with fewer than 2 valid rows the slope is
0.0 and the trend flat; a series of at least 3 identical nonzero Close
values yields slope 0.0, trend flat, volatility 0.0 and profile low.
However, contrary to the claim, a TWO-row series of identical Close
values has volatility NaN, not 0.0 (one defined return, sample standard
deviation undefined, and the or-zero guard never fires because NaN is
truthy), as the last conjunct shows. -/
theorem c2_momentum_slope :
    (∀ (sym : String) (df : PriceFrame) (r : InsightReport)
        (df2 : PriceFrame),
        rowsStrictlySorted df.rows →
        generate_insights_from_history sym df = Except.ok (r, df2) →
        (2 ≤ (insValidRows df.rows).length →
            r.momentum_slope = pyRound 6 (lsSlope ((insValidRows df.rows).map
                (fun q => ((q.date : ℚ), q.close.getD 0)))) ∧
            r.trend_direction = trendLabel (lsSlope ((insValidRows df.rows).map
                (fun q => ((q.date : ℚ), q.close.getD 0))))) ∧
        ((insValidRows df.rows).length < 2 →
            r.momentum_slope = 0 ∧ r.trend_direction = "flat")) ∧
    (∀ (sym : String) (df : PriceFrame) (r : InsightReport)
        (df2 : PriceFrame) (c : ℚ) (n : ℕ),
        rowsStrictlySorted df.rows →
        df.rows.map (fun q => q.close) = List.replicate n (some c) →
        c ≠ 0 → 3 ≤ n →
        generate_insights_from_history sym df = Except.ok (r, df2) →
        r.momentum_slope = 0 ∧ r.trend_direction = "flat" ∧
        r.volatilitySq = some 0 ∧ r.volatility_profile = "low") ∧
    (generate_insights_from_history "AAPL" dfTwoSame).map
        (fun p => p.1.volatilitySq) = Except.ok none := by
  refine ⟨?_, ?_, ?_⟩
  · intro sym df r df2 hS hOk
    obtain ⟨h1, _⟩ := (gen_ok_iff sym df r df2).mp hOk
    rw [dfSortRows_eq_of_sorted df.rows hS] at h1
    exact insReport_slope sym df.hasVolume df.rows r h1
  · intro sym df r df2 c n hS hmap hc h3 hOk
    obtain ⟨h1, _⟩ := (gen_ok_iff sym df r df2).mp hOk
    rw [dfSortRows_eq_of_sorted df.rows hS] at h1
    exact insReport_const sym df.hasVolume df.rows r c n hmap hc h3 h1
  · decide

/-- Witness for claim C2: the two-row rising series has least-squares
slope 10 and an upward trend; the four-row identical series has slope 0,
flat trend, zero variance and a low profile. -/
theorem c2_witness :
    ((generate_insights_from_history "AAPL" dfTwoRows).map
        (fun p => (p.1.momentum_slope, p.1.trend_direction))
      = Except.ok (10, "upward")) ∧
    ((generate_insights_from_history "AAPL" dfFourSame).map
        (fun p => (p.1.momentum_slope, p.1.trend_direction,
          p.1.volatilitySq, p.1.volatility_profile))
      = Except.ok (0, "flat", some 0, "low")) := by
  constructor
  · cases hE : generate_insights_from_history "AAPL" dfTwoRows with
    | error e => cases e <;> exact absurd hE (by decide)
    | ok p =>
        obtain ⟨r, df2⟩ := p
        have h := (c2_momentum_slope.1 "AAPL" dfTwoRows r df2 (by decide)
          hE).1 (by decide)
        have hLs : lsSlope ((insValidRows dfTwoRows.rows).map
            (fun q => ((q.date : ℚ), q.close.getD 0))) = 10 := by
          norm_num [insValidRows, dfTwoRows, lsSlope, List.filter]
        have hTr : trendLabel 10 = "upward" := by
          norm_num [trendLabel, trendSlopeThreshold]
        simp only [Except.map]
        rw [h.1, h.2, hLs, hTr,
          pyRound_int 6 10 10000000 (by norm_num)]
  · cases hE : generate_insights_from_history "AAPL" dfFourSame with
    | error e => cases e <;> exact absurd hE (by decide)
    | ok p =>
        obtain ⟨r, df2⟩ := p
        have h := c2_momentum_slope.2.1 "AAPL" dfFourSame r df2 7 4
          (by decide) (by decide) (by decide) (by decide) hE
        simp only [Except.map]
        rw [h.1, h.2.1, h.2.2.1, h.2.2.2]

/- ## Claim C8 -/

theorem insReport_avg_volume (sym : String) (hv : Bool)
    (rows : List PriceRow) (r : InsightReport)
    (h1 : insReport sym hv rows = Except.ok r) :
    (hv = false → r.average_volume = none) ∧
    (hv = true →
      insValidRows rows ≠ [] →
      (∀ q ∈ insValidRows rows, q.volume.isSome = true) →
      r.average_volume = some (truncQ (listMean
        ((insValidRows rows).filterMap (fun q => q.volume))))) := by
  cases rows with
  | nil => simp [insReport] at h1
  | cons r0 rest =>
      have hFields := insReport_fields sym hv r0 rest r h1
      have hAv := hFields.2.2.2.2.2.2.2
      constructor
      · intro hf
        subst hf
        exact hAv none rfl
      · intro ht hne hall
        subst ht
        have hfm : ((insValidRows (r0 :: rest)).map
              (fun q => q.volume)).filterMap id
            = (insValidRows (r0 :: rest)).filterMap (fun q => q.volume) := by
          rw [List.filterMap_map]
          simp
        have hnil : (insValidRows (r0 :: rest)).filterMap
            (fun q => q.volume) ≠ [] := by
          cases hv0 : insValidRows (r0 :: rest) with
          | nil => exact absurd hv0 hne
          | cons v vs =>
              have hs := hall v (by rw [hv0]; simp)
              intro hcontra
              have hv_none := List.filterMap_eq_nil_iff.mp hcontra v
                (by simp)
              rw [hv_none] at hs
              cases hs
        have hOM : optMean ((insValidRows (r0 :: rest)).map
              (fun q => q.volume))
            = some (listMean ((insValidRows (r0 :: rest)).filterMap
                (fun q => q.volume))) := by
          simp only [optMean, hfm]
          rw [if_neg (by simp [List.isEmpty_iff, hnil])]
        have hAvE : insAvgVolumeE true (r0 :: rest)
            = Except.ok (some (truncQ (listMean
                ((insValidRows (r0 :: rest)).filterMap
                  (fun q => q.volume))))) := by
          unfold insAvgVolumeE
          rw [if_pos rfl, hOM]
        exact hAv _ hAvE

/-- Claim C8: average_volume is null when the frame has no Volume column,
and otherwise is the integer truncation of the mean Volume over the valid
rows whenever every valid row has a defined Volume. However, contrary to
the claim it does NOT hold for every series: when a Volume column is
present but its values over the valid rows are all undefined, the mean is
NaN and the int() conversion at line 170 raises an uncaught ValueError,
as the last conjunct shows (the generator fails instead of producing a
report). -/
theorem c8_average_volume :
    (∀ (sym : String) (df : PriceFrame) (r : InsightReport)
        (df2 : PriceFrame),
        rowsStrictlySorted df.rows →
        generate_insights_from_history sym df = Except.ok (r, df2) →
        (df.hasVolume = false → r.average_volume = none) ∧
        (df.hasVolume = true →
          insValidRows df.rows ≠ [] →
          (∀ q ∈ insValidRows df.rows, q.volume.isSome = true) →
          r.average_volume = some (truncQ (listMean
            ((insValidRows df.rows).filterMap (fun q => q.volume)))))) ∧
    generate_insights_from_history "AAPL" dfNanVolume
      = Except.error GenErr.NanVolumeCast := by
  constructor
  · intro sym df r df2 hS hOk
    obtain ⟨h1, _⟩ := (gen_ok_iff sym df r df2).mp hOk
    rw [dfSortRows_eq_of_sorted df.rows hS] at h1
    exact insReport_avg_volume sym df.hasVolume df.rows r h1
  · decide

/-- Witness for claim C8: the three-row frame with volumes 10, 20, 30 and
Volume column present reports average_volume 20; a frame without the
column reports null. -/
theorem c8_witness :
    ((generate_insights_from_history "AAPL" dfThreeRows).map
        (fun p => p.1.average_volume) = Except.ok (some 20)) ∧
    ((generate_insights_from_history "AAPL" dfTwoRows).map
        (fun p => p.1.average_volume) = Except.ok none) := by
  constructor
  · cases hE : generate_insights_from_history "AAPL" dfThreeRows with
    | error e => cases e <;> exact absurd hE (by decide)
    | ok p =>
        obtain ⟨r, df2⟩ := p
        have h := (c8_average_volume.1 "AAPL" dfThreeRows r df2 (by decide)
          hE).2 rfl (by decide) (by decide)
        have hL : (insValidRows dfThreeRows.rows).filterMap
            (fun q => q.volume) = [10, 20, 30] := by decide
        have hM : listMean [(10 : ℚ), 20, 30] = 20 := by
          norm_num [listMean]
        have hT : truncQ (20 : ℚ) = 20 := by
          norm_num [truncQ]
        simp only [Except.map]
        rw [h, hL, hM, hT]
  · cases hE : generate_insights_from_history "AAPL" dfTwoRows with
    | error e => cases e <;> exact absurd hE (by decide)
    | ok p =>
        obtain ⟨r, df2⟩ := p
        have h := (c8_average_volume.1 "AAPL" dfTwoRows r df2 (by decide)
          hE).1 rfl
        simp only [Except.map]
        rw [h]
